import Mathlib

set_option linter.unusedVariables false

/-!
Verification of the AOT-inductor debug-printing utilities
(torch/_inductor/codegen/debug_utils.py).

The embedding below models the module faithfully:
  - the four-state debugging level enumeration;
  - the environment-variable level resolver;
  - the lazily computed filter list derived from the
    aot_inductor.filtered_kernel_names configuration string
    (lower-cased, comma-split, whitespace-stripped);
  - the DebugPrinterManager with its constructor, setter, scope
    entry and scope exit, and the two per-argument emission loops
    (tensor-value save and tensor-value print).

Generated-code emission is modelled as a growing list of lines
(the wrapper_code buffer) plus a registry of instrumented kernel
names (all_codegen_kernel_names).  Python exceptions that the
emission loops can raise (IndexError from indexing a too-short
arg_signatures list, AssertionError from the FILTERED_PRINT
precondition) are modelled explicitly: each loop returns the lines
appended before the exception together with an optional error.
-/

namespace DebugUtils

/-- The four debugging levels of the module, in source order. -/
inductive IntermediateValueDebuggingLevel where
  | OFF
  | SAVE
  | DEFAULT_PRINT
  | FILTERED_PRINT
deriving DecidableEq, Repr

open IntermediateValueDebuggingLevel

/-- Resolver for the AOT_INDUCTOR_DEBUG_INTERMEDIATE_VALUE_PRINTER
environment variable; the argument is the value of the variable, none
meaning unset.  The source reads os.environ.get(name, "0") and compares
against "1", "2", "3" in turn, returning OFF otherwise. -/
def aot_inductor_debug_intermediate_tensor_value_level
    (env : Option String) : IntermediateValueDebuggingLevel :=
  if env.getD "0" = "1" then SAVE
  else if env.getD "0" = "2" then DEFAULT_PRINT
  else if env.getD "0" = "3" then FILTERED_PRINT
  else OFF

/-- Kind of an entry of the arg_signatures list: the source only tests
isinstance(arg_signatures[i], TensorArg), so an entry is either a
TensorArg or anything else. -/
inductive ArgSigKind where
  | tensorArg
  | otherArg
deriving DecidableEq, Repr

/-- Boolean form of the isinstance(_, TensorArg) test. -/
def ArgSigKind.isTensorArg : ArgSigKind → Bool
  | .tensorArg => true
  | .otherArg => false

/-- The configuration the module consults: V.graph.cpp_wrapper,
config.abi_compatible, and config.aot_inductor.filtered_kernel_names. -/
structure Config where
  cpp_wrapper : Bool
  abi_compatible : Bool
  filtered_kernel_names : Option String
deriving DecidableEq, Repr

/-- Splitting a character list at every comma, matching the semantics of
the Python str.split(",") call: the empty string yields one empty piece,
and a trailing comma yields a trailing empty piece. -/
def split_comma : List Char → List (List Char)
  | [] => [[]]
  | c :: rest =>
    match split_comma rest with
    | [] => [[]]
    | g :: gs => if c = ',' then [] :: g :: gs else (c :: g) :: gs

/-- Stripping leading and trailing whitespace, matching the Python
str.strip() call on the identifiers involved. -/
def strip_chars (l : List Char) : List Char :=
  ((l.dropWhile Char.isWhitespace).reverse.dropWhile Char.isWhitespace).reverse

/-- The memoized filter-list computation of the manager: if the
filtered_kernel_names configuration string is unset the list is empty,
otherwise the string is lower-cased, split on commas and each piece is
stripped.  Lower-casing is modelled per character with Char.toLower,
which agrees with the Python str.lower() call on the ASCII kernel-name
alphabet the module uses. -/
def get_debug_filtered_kernel_names (cfg : Config) : List String :=
  match cfg.filtered_kernel_names with
  | none => []
  | some s =>
    (split_comma (s.data.map Char.toLower)).map
      (fun cs => String.mk (strip_chars cs))

/-- The graph-level state the manager mutates: the wrapper_code buffer
receiving one generated line per writeline call, and the registry of
kernel names that have been instrumented. -/
structure GraphState where
  wrapper_code : List String
  all_codegen_kernel_names : List String
deriving DecidableEq, Repr

/-- The two Python exceptions the emission loops can raise. -/
inductive EmitError where
  | indexError
  | assertionError
deriving DecidableEq, Repr

/-- The launch_prefix string chosen from the before_launch flag. -/
def phase_str (before_launch : Bool) : String :=
  if before_launch then "before_launch" else "after_launch"

/-- The generated save line of the abi-compatible cpp-wrapper target. -/
def save_line (arg phase kernel_name : String) : String :=
  "aoti_torch_save_tensor_handle(" ++ arg ++ ", \"" ++ arg ++ "\", \"" ++
    phase ++ "\", \"" ++ kernel_name ++ "\");"

/-- The generated print line of the abi-compatible cpp-wrapper target. -/
def print_line_abi (arg phase kernel_name : String) : String :=
  "aoti_torch_print_tensor_handle(" ++ arg ++ ", \"" ++ phase ++ " - " ++
    kernel_name ++ " - " ++ arg ++ "\");"

/-- The generated print line of the non-cpp-wrapper target. -/
def print_line_default (arg phase kernel_name : String) : String :=
  "print(\x27" ++ phase ++ " - " ++ kernel_name ++ " - " ++ arg ++
    "\x27, " ++ arg ++ ")"

/-- Lines the save loop body writes for one qualifying argument: one
save line on the abi-compatible cpp-wrapper target, nothing on the
other two targets (both are explicit pass stubs in the source). -/
def save_emit (cfg : Config) (arg phase kernel_name : String) : List String :=
  if cfg.cpp_wrapper then
    if cfg.abi_compatible then [save_line arg phase kernel_name] else []
  else []

/-- Lines the print loop body writes for one qualifying argument: one
abi print line on the abi-compatible cpp-wrapper target, nothing on the
non-abi cpp-wrapper target (pass stub), and one plain print statement on
the non-cpp-wrapper target. -/
def print_emit (cfg : Config) (arg phase kernel_name : String) : List String :=
  if cfg.cpp_wrapper then
    if cfg.abi_compatible then [print_line_abi arg phase kernel_name] else []
  else [print_line_default arg phase kernel_name]

/-- The loop of codegen_intermediate_tensor_value_save: iterate over the
arguments with their index; an argument whose signature entry is not a
TensorArg is skipped; indexing a too-short signature list raises
IndexError.  Returns the lines written before any exception, plus the
exception if one was raised. -/
def save_loop (cfg : Config) (kernel_name : String) (before_launch : Bool)
    (arg_signatures : Option (List ArgSigKind)) :
    Nat → List String → List String × Option EmitError
  | _, [] => ([], none)
  | i, arg :: rest =>
    match arg_signatures with
    | some sigs =>
      match sigs[i]? with
      | none => ([], some EmitError.indexError)
      | some sig =>
        if sig.isTensorArg then
          let r := save_loop cfg kernel_name before_launch arg_signatures (i + 1) rest
          (save_emit cfg arg (phase_str before_launch) kernel_name ++ r.1, r.2)
        else
          save_loop cfg kernel_name before_launch arg_signatures (i + 1) rest
    | none =>
      let r := save_loop cfg kernel_name before_launch arg_signatures (i + 1) rest
      (save_emit cfg arg (phase_str before_launch) kernel_name ++ r.1, r.2)

/-- Body of one print-loop iteration after the signature filter: at
FILTERED_PRINT level the loop first asserts that the filter list is
nonempty (raising AssertionError otherwise, which discards the rest of
the loop) and then skips the argument when the kernel name is not in the
filter list; at every other level it prints unconditionally. -/
def printer_step (cfg : Config) (level : IntermediateValueDebuggingLevel)
    (filtered : List String) (kernel_name : String) (before_launch : Bool)
    (arg : String) (rest : List String × Option EmitError) :
    List String × Option EmitError :=
  if level = FILTERED_PRINT then
    if 0 < filtered.length then
      if kernel_name ∈ filtered then
        (print_emit cfg arg (phase_str before_launch) kernel_name ++ rest.1, rest.2)
      else rest
    else ([], some EmitError.assertionError)
  else
    (print_emit cfg arg (phase_str before_launch) kernel_name ++ rest.1, rest.2)

/-- The loop of codegen_intermediate_tensor_value_printer, with the same
signature filter and IndexError behaviour as the save loop. -/
def printer_loop (cfg : Config) (level : IntermediateValueDebuggingLevel)
    (filtered : List String) (kernel_name : String) (before_launch : Bool)
    (arg_signatures : Option (List ArgSigKind)) :
    Nat → List String → List String × Option EmitError
  | _, [] => ([], none)
  | i, arg :: rest =>
    match arg_signatures with
    | some sigs =>
      match sigs[i]? with
      | none => ([], some EmitError.indexError)
      | some sig =>
        if sig.isTensorArg then
          printer_step cfg level filtered kernel_name before_launch arg
            (printer_loop cfg level filtered kernel_name before_launch
              arg_signatures (i + 1) rest)
        else
          printer_loop cfg level filtered kernel_name before_launch
            arg_signatures (i + 1) rest
    | none =>
      printer_step cfg level filtered kernel_name before_launch arg
        (printer_loop cfg level filtered kernel_name before_launch
          arg_signatures (i + 1) rest)

/-- The manager state: mirror of the attributes set in the constructor
of DebugPrinterManager.  The opaque kernel descriptor is modelled as an
optional string handle, since the module never inspects it. -/
structure DebugPrinterManager where
  enable_debug_printer : IntermediateValueDebuggingLevel
  args_to_print_or_save : List String
  kernel_name : String
  arg_signatures : Option (List ArgSigKind)
  kernel : Option String
  filtered_kernel_names_to_print : List String
deriving DecidableEq, Repr

/-- The constructor: the enable_debug_printer parameter is ignored and
the level is re-resolved from the environment; a missing argument list
defaults to empty; the arg_signatures attribute is set to None
regardless of the arg_signatures parameter; the filter list is computed
from the configuration. -/
def DebugPrinterManager.init
    (enable_debug_printer : IntermediateValueDebuggingLevel)
    (args_to_print_or_save : Option (List String))
    (kernel_name : String)
    (kernel : Option String)
    (arg_signatures : Option (List ArgSigKind))
    (env : Option String) (cfg : Config) : DebugPrinterManager :=
  { enable_debug_printer := aot_inductor_debug_intermediate_tensor_value_level env
    args_to_print_or_save := args_to_print_or_save.getD []
    kernel_name := kernel_name
    arg_signatures := none
    kernel := kernel
    filtered_kernel_names_to_print := get_debug_filtered_kernel_names cfg }

/-- The set_printer_args setter: overwrites the four per-kernel fields
in place. -/
def DebugPrinterManager.set_printer_args (self : DebugPrinterManager)
    (args_to_print : List String) (kernel_name : String)
    (arg_signatures : Option (List ArgSigKind)) (kernel : Option String) :
    DebugPrinterManager :=
  { self with
    args_to_print_or_save := args_to_print
    kernel_name := kernel_name
    arg_signatures := arg_signatures
    kernel := kernel }

/-- The codegen_intermediate_tensor_value_save method as a function from
its inputs to the list of lines written and an optional exception. -/
def codegen_intermediate_tensor_value_save (cfg : Config)
    (args_to_save : List String) (kernel_name : String)
    (before_launch : Bool) (arg_signatures : Option (List ArgSigKind)) :
    List String × Option EmitError :=
  save_loop cfg kernel_name before_launch arg_signatures 0 args_to_save

/-- The codegen_intermediate_tensor_value_printer method; it reads the
level and the memoized filter list from the manager, passed here as
explicit arguments. -/
def codegen_intermediate_tensor_value_printer (cfg : Config)
    (level : IntermediateValueDebuggingLevel) (filtered : List String)
    (args_to_print : List String) (kernel_name : String)
    (before_launch : Bool) (arg_signatures : Option (List ArgSigKind)) :
    List String × Option EmitError :=
  printer_loop cfg level filtered kernel_name before_launch arg_signatures
    0 args_to_print

/-- Scope entry: a no-op at OFF level; otherwise the kernel name is
added to the registry, the save emission runs with before_launch true,
and, unless the level is exactly SAVE, the print emission follows.  A
raised exception stops the sequence but the lines already written stay
in the buffer. -/
def DebugPrinterManager.enter (self : DebugPrinterManager) (cfg : Config)
    (st : GraphState) : GraphState × Option EmitError :=
  if self.enable_debug_printer = OFF then (st, none)
  else
    let names := st.all_codegen_kernel_names.insert self.kernel_name
    let s := codegen_intermediate_tensor_value_save cfg
      self.args_to_print_or_save self.kernel_name true self.arg_signatures
    match s.2 with
    | some e =>
      ({ wrapper_code := st.wrapper_code ++ s.1
         all_codegen_kernel_names := names }, some e)
    | none =>
      if self.enable_debug_printer = SAVE then
        ({ wrapper_code := st.wrapper_code ++ s.1
           all_codegen_kernel_names := names }, none)
      else
        let p := codegen_intermediate_tensor_value_printer cfg
          self.enable_debug_printer self.filtered_kernel_names_to_print
          self.args_to_print_or_save self.kernel_name true self.arg_signatures
        ({ wrapper_code := st.wrapper_code ++ s.1 ++ p.1
           all_codegen_kernel_names := names }, p.2)

/-- Scope exit: identical to entry except that before_launch is false
and the registry is not touched. -/
def DebugPrinterManager.exit (self : DebugPrinterManager) (cfg : Config)
    (st : GraphState) : GraphState × Option EmitError :=
  if self.enable_debug_printer = OFF then (st, none)
  else
    let s := codegen_intermediate_tensor_value_save cfg
      self.args_to_print_or_save self.kernel_name false self.arg_signatures
    match s.2 with
    | some e =>
      ({ wrapper_code := st.wrapper_code ++ s.1
         all_codegen_kernel_names := st.all_codegen_kernel_names }, some e)
    | none =>
      if self.enable_debug_printer = SAVE then
        ({ wrapper_code := st.wrapper_code ++ s.1
           all_codegen_kernel_names := st.all_codegen_kernel_names }, none)
      else
        let p := codegen_intermediate_tensor_value_printer cfg
          self.enable_debug_printer self.filtered_kernel_names_to_print
          self.args_to_print_or_save self.kernel_name false self.arg_signatures
        ({ wrapper_code := st.wrapper_code ++ s.1 ++ p.1
           all_codegen_kernel_names := st.all_codegen_kernel_names }, p.2)

/-- Outcome of running a with-statement around a body. -/
inductive ScopeOutcome where
  | ok
  | bodyError
  | enterError (e : EmitError)
  | exitError (e : EmitError)
deriving DecidableEq, Repr

/-- The Python with-statement semantics around the manager: entry runs
first and a raised entry exception skips both the body and the exit;
otherwise the body runs (its boolean result records whether it raised),
then exit always runs, and a body exception propagates afterwards
because the exit method returns None (falsy). -/
def DebugPrinterManager.withScope (self : DebugPrinterManager) (cfg : Config)
    (body : GraphState → GraphState × Bool) (st : GraphState) :
    GraphState × ScopeOutcome :=
  let en := self.enter cfg st
  match en.2 with
  | some e => (en.1, ScopeOutcome.enterError e)
  | none =>
    let b := body en.1
    let ex := self.exit cfg b.1
    match ex.2 with
    | some e => (ex.1, ScopeOutcome.exitError e)
    | none => (ex.1, if b.2 then ScopeOutcome.bodyError else ScopeOutcome.ok)

/-- The watched arguments that pass the type-tag filter, starting at
signature index i: with no signature list every argument qualifies; with
one, exactly the arguments whose entry is a TensorArg qualify. -/
def tensor_args (arg_signatures : Option (List ArgSigKind)) :
    Nat → List String → List String
  | _, [] => []
  | i, arg :: rest =>
    match arg_signatures with
    | none => arg :: tensor_args arg_signatures (i + 1) rest
    | some sigs =>
      match sigs[i]? with
      | none => tensor_args arg_signatures (i + 1) rest
      | some sig =>
        if sig.isTensorArg then arg :: tensor_args arg_signatures (i + 1) rest
        else tensor_args arg_signatures (i + 1) rest

/-- Well-formedness of the manager: the signature list, when present, is
at least as long as the argument list, so that indexing never raises. -/
def sigs_ok (self : DebugPrinterManager) : Bool :=
  match self.arg_signatures with
  | none => true
  | some ss => self.args_to_print_or_save.length ≤ ss.length

/-- A line is a print line when it carries one of the two print-line
shapes the module can generate. -/
def is_print_line (l : String) : Bool :=
  "aoti_torch_print_tensor_handle(".data.isPrefixOf l.data ||
    "print(".data.isPrefixOf l.data

/-- The lines one activation (entry or exit) appends to the buffer when
no exception is raised: nothing at OFF; the save lines of the qualifying
arguments, followed, at the two print levels, by their print lines, the
latter dropped at FILTERED_PRINT when the kernel name is not in the
filter list. -/
def level_emits (self : DebugPrinterManager) (cfg : Config)
    (before_launch : Bool) : List String :=
  if self.enable_debug_printer = OFF then []
  else
    ((tensor_args self.arg_signatures 0 self.args_to_print_or_save).map
        (fun a => save_emit cfg a (phase_str before_launch) self.kernel_name)).flatten ++
    (if self.enable_debug_printer = SAVE then []
     else if self.enable_debug_printer = FILTERED_PRINT ∧
         self.kernel_name ∉ self.filtered_kernel_names_to_print then []
     else ((tensor_args self.arg_signatures 0 self.args_to_print_or_save).map
        (fun a => print_emit cfg a (phase_str before_launch) self.kernel_name)).flatten)

/-- Modelling of the level mapping stated by the specification, for
comparison with the resolver translated from the source. -/
def spec_level_of_env (env : Option String) : IntermediateValueDebuggingLevel :=
  match env with
  | none => OFF
  | some s =>
    if s = "1" then SAVE
    else if s = "2" then DEFAULT_PRINT
    else if s = "3" then FILTERED_PRINT
    else OFF

/-- Configuration of the abi-compatible cpp-wrapper target with no
configured filter string. -/
def cfgAbi : Config :=
  { cpp_wrapper := true, abi_compatible := true, filtered_kernel_names := none }

/-- Configuration of the non-cpp-wrapper (plain python printing) target. -/
def cfgPy : Config :=
  { cpp_wrapper := false, abi_compatible := false, filtered_kernel_names := none }

/-- Abi-compatible cpp-wrapper configuration whose filter string names
the single kernel matmul_kernel. -/
def cfgMatmul : Config :=
  { cpp_wrapper := true, abi_compatible := true,
    filtered_kernel_names := some "matmul_kernel" }

/-- The empty graph state. -/
def st0 : GraphState := { wrapper_code := [], all_codegen_kernel_names := [] }

/-- Direct construction of a manager state, as set_printer_args would
leave it. -/
def mkMgr (lvl : IntermediateValueDebuggingLevel) (args : List String)
    (kn : String) (sigs : Option (List ArgSigKind)) (fil : List String) :
    DebugPrinterManager :=
  { enable_debug_printer := lvl
    args_to_print_or_save := args
    kernel_name := kn
    arg_signatures := sigs
    kernel := none
    filtered_kernel_names_to_print := fil }

/-- Manager at FILTERED_PRINT level with an empty memoized filter list
and one tensor-tagged argument. -/
def mgrC1 : DebugPrinterManager :=
  mkMgr FILTERED_PRINT ["buf0"] "k0" (some [ArgSigKind.tensorArg]) []

/-- Manager at SAVE level with one tensor-tagged argument. -/
def mgrC2 : DebugPrinterManager :=
  mkMgr SAVE ["buf0"] "k0" (some [ArgSigKind.tensorArg]) []

/-- Manager of the DEFAULT_PRINT scenario of the specification. -/
def mgrC3 : DebugPrinterManager :=
  mkMgr DEFAULT_PRINT ["buf0"] "k0" (some [ArgSigKind.tensorArg]) []

/-- Manager at FILTERED_PRINT level whose kernel name is exactly the
configured (lower-case) filter entry. -/
def mgrMatmulLower : DebugPrinterManager :=
  mkMgr FILTERED_PRINT ["buf0"] "matmul_kernel" (some [ArgSigKind.tensorArg])
    (get_debug_filtered_kernel_names cfgMatmul)

/-- Manager identical to mgrMatmulLower except that the kernel name is
upper-cased. -/
def mgrMatmulUpper : DebugPrinterManager :=
  mkMgr FILTERED_PRINT ["buf0"] "MATMUL_KERNEL" (some [ArgSigKind.tensorArg])
    (get_debug_filtered_kernel_names cfgMatmul)

/-- Manager at FILTERED_PRINT level with filter list [matmul_kernel] and
the non-matching kernel name add_kernel. -/
def mgrAddKernel : DebugPrinterManager :=
  mkMgr FILTERED_PRINT ["buf0"] "add_kernel" (some [ArgSigKind.tensorArg])
    ["matmul_kernel"]

/-- Manager at OFF level with a nonempty argument list. -/
def mgrOff : DebugPrinterManager :=
  mkMgr OFF ["buf0"] "k7" (some [ArgSigKind.tensorArg]) []

/-- Manager at SAVE level used for the scope-bracketing witness. -/
def mgrC8 : DebugPrinterManager :=
  mkMgr SAVE ["buf0"] "k8" none []

/-- Manager at SAVE level with an empty argument list, so that scope
entry appends no line at all. -/
def mgrC10 : DebugPrinterManager :=
  mkMgr SAVE [] "k10" none []


/-- The save loop never raises when the signature list is long enough,
and writes exactly the per-argument save emissions of the qualifying
arguments, in argument order. -/
theorem save_loop_eq (cfg : Config) (kn : String) (b : Bool)
    (sigs : Option (List ArgSigKind)) :
    ∀ (args : List String) (i : Nat),
      (∀ ss, sigs = some ss → i + args.length ≤ ss.length) →
      save_loop cfg kn b sigs i args =
        (((tensor_args sigs i args).map
            (fun a => save_emit cfg a (phase_str b) kn)).flatten, none) := by
  intro args
  induction args with
  | nil => intro i h; rfl
  | cons arg rest ih =>
    intro i h
    cases hs : sigs with
    | none =>
      have ihh := ih (i + 1) (fun ss hss => by rw [hs] at hss; cases hss)
      rw [hs] at ihh
      simp only [save_loop, tensor_args, hs, ihh, List.map_cons, List.flatten_cons]
    | some ss =>
      have hlen : i < ss.length := by
        have := h ss hs
        simp only [List.length_cons] at this
        omega
      have ihh := ih (i + 1) (fun ss2 hss => by
        rw [hs] at hss
        cases hss
        have := h ss hs
        simp only [List.length_cons] at this ⊢
        omega)
      rw [hs] at ihh
      simp only [save_loop, tensor_args, hs, List.getElem?_eq_getElem hlen, ihh]
      cases htag : (ss[i]).isTensorArg with
      | true => simp [htag]
      | false => simp [htag]

/-- The print loop never raises when the signature list is long enough
and the FILTERED_PRINT precondition holds; it writes the per-argument
print emissions of the qualifying arguments unless the level is
FILTERED_PRINT with a non-matching kernel name, and at FILTERED_PRINT
with an empty filter list it raises AssertionError at the first
qualifying argument, writing nothing. -/
theorem printer_loop_eq (cfg : Config)
    (level : IntermediateValueDebuggingLevel) (filtered : List String)
    (kn : String) (b : Bool) (sigs : Option (List ArgSigKind)) :
    ∀ (args : List String) (i : Nat),
      (∀ ss, sigs = some ss → i + args.length ≤ ss.length) →
      printer_loop cfg level filtered kn b sigs i args =
        if level = FILTERED_PRINT then
          if filtered = [] then
            ([], if tensor_args sigs i args = [] then none
                 else some EmitError.assertionError)
          else if kn ∈ filtered then
            (((tensor_args sigs i args).map
                (fun a => print_emit cfg a (phase_str b) kn)).flatten, none)
          else ([], none)
        else
          (((tensor_args sigs i args).map
              (fun a => print_emit cfg a (phase_str b) kn)).flatten, none) := by
  have step : ∀ (arg : String) (r : List String × Option EmitError),
      printer_step cfg level filtered kn b arg r =
        if level = FILTERED_PRINT then
          if 0 < filtered.length then
            if kn ∈ filtered then
              (print_emit cfg arg (phase_str b) kn ++ r.1, r.2)
            else r
          else ([], some EmitError.assertionError)
        else (print_emit cfg arg (phase_str b) kn ++ r.1, r.2) :=
    fun arg r => rfl
  by_cases hl : level = FILTERED_PRINT
  · subst hl
    by_cases hf : filtered = []
    · -- FILTERED_PRINT with an empty filter list: the assertion fires at
      -- the first qualifying argument.
      subst hf
      intro args
      induction args with
      | nil => intro i h; simp [printer_loop, tensor_args]
      | cons arg rest ih =>
        intro i h
        cases hs : sigs with
        | none =>
          have ihh := ih (i + 1) (fun ss hss => by rw [hs] at hss; cases hss)
          rw [hs] at ihh
          simp [printer_loop, hs, step, ihh, tensor_args]
        | some ss =>
          have hlen : i < ss.length := by
            have := h ss hs
            simp only [List.length_cons] at this
            omega
          have ihh := ih (i + 1) (fun ss2 hss => by
            rw [hs] at hss
            cases hss
            have := h ss hs
            simp only [List.length_cons] at this ⊢
            omega)
          rw [hs] at ihh
          simp only [printer_loop, hs, List.getElem?_eq_getElem hlen, step,
            tensor_args]
          cases htag : (ss[i]).isTensorArg with
          | true => simp [htag]
          | false => simp [htag, ihh]
    · have hpos : 0 < filtered.length := List.length_pos.mpr hf
      by_cases hm : kn ∈ filtered
      · -- FILTERED_PRINT with a matching kernel name: prints emitted.
        intro args
        induction args with
        | nil => intro i h; simp [printer_loop, tensor_args, hf, hm]
        | cons arg rest ih =>
          intro i h
          cases hs : sigs with
          | none =>
            have ihh := ih (i + 1) (fun ss hss => by rw [hs] at hss; cases hss)
            rw [hs] at ihh
            simp [printer_loop, hs, step, ihh, tensor_args, hf, hm, hpos]
          | some ss =>
            have hlen : i < ss.length := by
              have := h ss hs
              simp only [List.length_cons] at this
              omega
            have ihh := ih (i + 1) (fun ss2 hss => by
              rw [hs] at hss
              cases hss
              have := h ss hs
              simp only [List.length_cons] at this ⊢
              omega)
            rw [hs] at ihh
            simp only [printer_loop, hs, List.getElem?_eq_getElem hlen, step,
              tensor_args]
            cases htag : (ss[i]).isTensorArg with
            | true => simp [htag, ihh, hf, hm, hpos]
            | false => simp [htag, ihh, hf, hm]
      · -- FILTERED_PRINT with a non-matching kernel name: nothing printed.
        intro args
        induction args with
        | nil => intro i h; simp [printer_loop, tensor_args, hf, hm]
        | cons arg rest ih =>
          intro i h
          cases hs : sigs with
          | none =>
            have ihh := ih (i + 1) (fun ss hss => by rw [hs] at hss; cases hss)
            rw [hs] at ihh
            simp [printer_loop, hs, step, ihh, tensor_args, hf, hm, hpos]
          | some ss =>
            have hlen : i < ss.length := by
              have := h ss hs
              simp only [List.length_cons] at this
              omega
            have ihh := ih (i + 1) (fun ss2 hss => by
              rw [hs] at hss
              cases hss
              have := h ss hs
              simp only [List.length_cons] at this ⊢
              omega)
            rw [hs] at ihh
            simp only [printer_loop, hs, List.getElem?_eq_getElem hlen, step,
              tensor_args]
            cases htag : (ss[i]).isTensorArg with
            | true => simp [htag, ihh, hf, hm, hpos]
            | false => simp [htag, ihh, hf, hm]
  · -- A level other than FILTERED_PRINT: prints emitted unconditionally.
    intro args
    induction args with
    | nil => intro i h; simp [printer_loop, tensor_args, hl]
    | cons arg rest ih =>
      intro i h
      cases hs : sigs with
      | none =>
        have ihh := ih (i + 1) (fun ss hss => by rw [hs] at hss; cases hss)
        rw [hs] at ihh
        simp [printer_loop, hs, step, ihh, tensor_args, hl]
      | some ss =>
        have hlen : i < ss.length := by
          have := h ss hs
          simp only [List.length_cons] at this
          omega
        have ihh := ih (i + 1) (fun ss2 hss => by
          rw [hs] at hss
          cases hss
          have := h ss hs
          simp only [List.length_cons] at this ⊢
          omega)
        rw [hs] at ihh
        simp only [printer_loop, hs, List.getElem?_eq_getElem hlen, step,
          tensor_args]
        cases htag : (ss[i]).isTensorArg with
        | true => simp [htag, ihh, hl]
        | false => simp [htag, ihh, hl]

/-- With no signature list every watched argument qualifies. -/
theorem tensor_args_none : ∀ (i : Nat) (args : List String),
    tensor_args none i args = args
  | _, [] => rfl
  | i, arg :: rest => by
    simp [tensor_args, tensor_args_none (i + 1) rest]

/-- On the abi-compatible cpp-wrapper target the flattened save
emissions are one save line per qualifying argument. -/
theorem flatten_map_save_emit (cfg : Config) (hc : cfg.cpp_wrapper = true)
    (ha : cfg.abi_compatible = true) (l : List String) (p k : String) :
    (l.map (fun a => save_emit cfg a p k)).flatten =
      l.map (fun a => save_line a p k) := by
  induction l with
  | nil => rfl
  | cons x xs ih =>
    simp [save_emit, hc, ha] at ih ⊢
    simp [ih]

/-- On the abi-compatible cpp-wrapper target the flattened print
emissions are one abi print line per qualifying argument. -/
theorem flatten_map_print_emit (cfg : Config) (hc : cfg.cpp_wrapper = true)
    (ha : cfg.abi_compatible = true) (l : List String) (p k : String) :
    (l.map (fun a => print_emit cfg a p k)).flatten =
      l.map (fun a => print_line_abi a p k) := by
  induction l with
  | nil => rfl
  | cons x xs ih =>
    simp [print_emit, hc, ha] at ih ⊢
    simp [ih]

/-- A save line never has either print-line shape. -/
theorem is_print_line_save_line (a p k : String) :
    is_print_line (save_line a p k) = false := by
  simp [is_print_line, save_line, List.isPrefixOf]

/-- Length bound extracted from the boolean well-formedness flag. -/
theorem sigs_ok_bound (self : DebugPrinterManager) (h : sigs_ok self = true) :
    ∀ ss, self.arg_signatures = some ss →
      0 + self.args_to_print_or_save.length ≤ ss.length := by
  intro ss hss
  unfold sigs_ok at h
  rw [hss] at h
  simpa using h

/-- Characterization of scope entry at a non-OFF level under the
well-formedness hypotheses: the kernel name is registered, the lines of
level_emits with before_launch true are appended, and no exception is
raised. -/
theorem enter_spec (self : DebugPrinterManager) (cfg : Config)
    (st : GraphState) (h0 : self.enable_debug_printer ≠ OFF)
    (hsig : sigs_ok self = true)
    (hfil : self.enable_debug_printer = FILTERED_PRINT →
      self.filtered_kernel_names_to_print ≠ []) :
    self.enter cfg st =
      ({ wrapper_code := st.wrapper_code ++ level_emits self cfg true
         all_codegen_kernel_names :=
           st.all_codegen_kernel_names.insert self.kernel_name }, none) := by
  have hb := sigs_ok_bound self hsig
  have hsave := save_loop_eq cfg self.kernel_name true self.arg_signatures
    self.args_to_print_or_save 0 hb
  have hprint := printer_loop_eq cfg self.enable_debug_printer
    self.filtered_kernel_names_to_print self.kernel_name true
    self.arg_signatures self.args_to_print_or_save 0 hb
  cases hl : self.enable_debug_printer with
  | OFF => exact absurd hl h0
  | SAVE =>
    simp [DebugPrinterManager.enter, codegen_intermediate_tensor_value_save,
      codegen_intermediate_tensor_value_printer, hl, hsave, level_emits]
  | DEFAULT_PRINT =>
    rw [hl] at hprint
    simp [DebugPrinterManager.enter, codegen_intermediate_tensor_value_save,
      codegen_intermediate_tensor_value_printer, hl, hsave, hprint,
      level_emits]
  | FILTERED_PRINT =>
    have hne := hfil hl
    rw [hl] at hprint
    rw [if_pos rfl, if_neg hne] at hprint
    by_cases hm : self.kernel_name ∈ self.filtered_kernel_names_to_print
    · rw [if_pos hm] at hprint
      simp [DebugPrinterManager.enter, codegen_intermediate_tensor_value_save,
        codegen_intermediate_tensor_value_printer, hl, hsave, hprint,
        level_emits, hm]
    · rw [if_neg hm] at hprint
      simp [DebugPrinterManager.enter, codegen_intermediate_tensor_value_save,
        codegen_intermediate_tensor_value_printer, hl, hsave, hprint,
        level_emits, hm]

/-- Characterization of scope exit at a non-OFF level under the
well-formedness hypotheses: the registry is untouched, the lines of
level_emits with before_launch false are appended, and no exception is
raised. -/
theorem exit_spec (self : DebugPrinterManager) (cfg : Config)
    (st : GraphState) (h0 : self.enable_debug_printer ≠ OFF)
    (hsig : sigs_ok self = true)
    (hfil : self.enable_debug_printer = FILTERED_PRINT →
      self.filtered_kernel_names_to_print ≠ []) :
    self.exit cfg st =
      ({ wrapper_code := st.wrapper_code ++ level_emits self cfg false
         all_codegen_kernel_names := st.all_codegen_kernel_names }, none) := by
  have hb := sigs_ok_bound self hsig
  have hsave := save_loop_eq cfg self.kernel_name false self.arg_signatures
    self.args_to_print_or_save 0 hb
  have hprint := printer_loop_eq cfg self.enable_debug_printer
    self.filtered_kernel_names_to_print self.kernel_name false
    self.arg_signatures self.args_to_print_or_save 0 hb
  cases hl : self.enable_debug_printer with
  | OFF => exact absurd hl h0
  | SAVE =>
    simp [DebugPrinterManager.exit, codegen_intermediate_tensor_value_save,
      codegen_intermediate_tensor_value_printer, hl, hsave, level_emits]
  | DEFAULT_PRINT =>
    rw [hl] at hprint
    simp [DebugPrinterManager.exit, codegen_intermediate_tensor_value_save,
      codegen_intermediate_tensor_value_printer, hl, hsave, hprint,
      level_emits]
  | FILTERED_PRINT =>
    have hne := hfil hl
    rw [hl] at hprint
    rw [if_pos rfl, if_neg hne] at hprint
    by_cases hm : self.kernel_name ∈ self.filtered_kernel_names_to_print
    · rw [if_pos hm] at hprint
      simp [DebugPrinterManager.exit, codegen_intermediate_tensor_value_save,
        codegen_intermediate_tensor_value_printer, hl, hsave, hprint,
        level_emits, hm]
    · rw [if_neg hm] at hprint
      simp [DebugPrinterManager.exit, codegen_intermediate_tensor_value_save,
        codegen_intermediate_tensor_value_printer, hl, hsave, hprint,
        level_emits, hm]

/-- A line drawn from a list of mapped save lines is never a print
line. -/
theorem no_print_line_in_save_lines (l : String) (tas : List String)
    (p k : String) (hmem : l ∈ tas.map (fun a => save_line a p k)) :
    is_print_line l = false := by
  rw [List.mem_map] at hmem
  obtain ⟨a, _, rfl⟩ := hmem
  exact is_print_line_save_line a p k

/-- C6: the debug level resolver maps the environment value "1" to
SAVE, "2" to DEFAULT_PRINT, "3" to FILTERED_PRINT, and every other
value, including "0" and the variable being unset, to OFF; being a
total function it never raises. -/
theorem c6_level_resolver (env : Option String) :
    aot_inductor_debug_intermediate_tensor_value_level env =
      spec_level_of_env env := by
  cases env <;> rfl

/-- C7: at OFF level, scope entry and scope exit leave the graph state
unchanged, appending no line and leaving the kernel-name registry
untouched, for every argument list, kernel name and type-tag list. -/
theorem c7_off_noop (self : DebugPrinterManager) (cfg : Config)
    (st : GraphState) (h : self.enable_debug_printer = OFF) :
    self.enter cfg st = (st, none) ∧ self.exit cfg st = (st, none) := by
  constructor <;>
    simp [DebugPrinterManager.enter, DebugPrinterManager.exit, h]

/-- Witness for c7_off_noop at a concrete manager with a nonempty
argument list. -/
theorem c7_off_noop_witness :
    mgrOff.enable_debug_printer = OFF ∧
    (mgrOff.enter cfgAbi st0 = (st0, none) ∧
      mgrOff.exit cfgAbi st0 = (st0, none)) :=
  ⟨rfl, c7_off_noop mgrOff cfgAbi st0 rfl⟩

/-- C9: the constructor stores None as the type-tag list no matter what
arg_signatures argument it receives, only set_printer_args installs a
type-tag list, and with a None type-tag list the save emission treats
every watched argument as tensor-typed (no filtering). -/
theorem c9_arg_signatures_lifecycle :
    (∀ (lvl : IntermediateValueDebuggingLevel) (args : Option (List String))
        (kn : String) (k : Option String) (sigs : Option (List ArgSigKind))
        (env : Option String) (cfg : Config),
      (DebugPrinterManager.init lvl args kn k sigs env cfg).arg_signatures =
        none) ∧
    (∀ (self : DebugPrinterManager) (args : List String) (kn : String)
        (sigs : Option (List ArgSigKind)) (k : Option String),
      (self.set_printer_args args kn sigs k).arg_signatures = sigs) ∧
    (∀ (cfg : Config) (args : List String) (kn : String) (b : Bool),
      codegen_intermediate_tensor_value_save cfg args kn b none =
        ((args.map (fun a => save_emit cfg a (phase_str b) kn)).flatten,
          none)) := by
  refine ⟨fun _ _ _ _ _ _ _ => rfl, fun _ _ _ _ _ => rfl, ?_⟩
  intro cfg args kn b
  have h := save_loop_eq cfg kn b none args 0 (fun ss hss => by cases hss)
  rw [tensor_args_none] at h
  exact h

/-- C10: at every non-OFF level, scope entry adds the kernel name to
the registry, independently of how many lines the emission paths
append. -/
theorem c10_registry_add (self : DebugPrinterManager) (cfg : Config)
    (st : GraphState) (h : self.enable_debug_printer ≠ OFF) :
    self.kernel_name ∈ (self.enter cfg st).1.all_codegen_kernel_names := by
  unfold DebugPrinterManager.enter
  rw [if_neg h]
  cases hsv : (codegen_intermediate_tensor_value_save cfg
      self.args_to_print_or_save self.kernel_name true
      self.arg_signatures).2 with
  | some e => simp [hsv, List.mem_insert_iff]
  | none =>
    by_cases hs2 : self.enable_debug_printer = SAVE
    · simp [hsv, hs2, List.mem_insert_iff]
    · simp [hsv, hs2, List.mem_insert_iff]

/-- Witness for c10_registry_add at a manager whose scope entry appends
zero lines (empty argument list, non-cpp-wrapper target). -/
theorem c10_registry_add_witness :
    (mgrC10.enter cfgPy st0).1.wrapper_code = [] ∧
    mgrC10.kernel_name ∈ (mgrC10.enter cfgPy st0).1.all_codegen_kernel_names :=
  ⟨by decide, c10_registry_add mgrC10 cfgPy st0 (by decide)⟩

/-- C3: the DEFAULT_PRINT scenario of the specification, with one
tensor-tagged argument buf0 and kernel name k0 on the abi-compatible
cpp-wrapper target: entering then exiting the scope appends exactly the
four lines save-before, print-before, save-after, print-after in that
order, with the verbatim formats, and raises nothing. -/
theorem c3_default_print_scenario :
    ((mgrC3.exit cfgAbi (mgrC3.enter cfgAbi st0).1).1).wrapper_code =
      ["aoti_torch_save_tensor_handle(buf0, \"buf0\", \"before_launch\", \"k0\");",
       "aoti_torch_print_tensor_handle(buf0, \"before_launch - k0 - buf0\");",
       "aoti_torch_save_tensor_handle(buf0, \"buf0\", \"after_launch\", \"k0\");",
       "aoti_torch_print_tensor_handle(buf0, \"after_launch - k0 - buf0\");"] ∧
    (mgrC3.enter cfgAbi st0).2 = none ∧
    (mgrC3.exit cfgAbi (mgrC3.enter cfgAbi st0).1).2 = none := by
  decide

/-- C2: at SAVE level on the abi-compatible cpp-wrapper target, with a
well-formed type-tag list, scope entry appends exactly one save line
per tensor-typed argument, scope exit appends exactly one more per
tensor-typed argument, nothing raises, and no print line is ever
appended. -/
theorem c2_save_level (self : DebugPrinterManager) (cfg : Config)
    (st : GraphState) (hl : self.enable_debug_printer = SAVE)
    (hc : cfg.cpp_wrapper = true) (ha : cfg.abi_compatible = true)
    (hsig : sigs_ok self = true) :
    (self.enter cfg st).1.wrapper_code =
      st.wrapper_code ++
        (tensor_args self.arg_signatures 0 self.args_to_print_or_save).map
          (fun a => save_line a "before_launch" self.kernel_name) ∧
    (self.enter cfg st).2 = none ∧
    (self.exit cfg st).1.wrapper_code =
      st.wrapper_code ++
        (tensor_args self.arg_signatures 0 self.args_to_print_or_save).map
          (fun a => save_line a "after_launch" self.kernel_name) ∧
    (self.exit cfg st).2 = none ∧
    (∀ l, l ∈ (self.enter cfg st).1.wrapper_code → l ∉ st.wrapper_code →
      is_print_line l = false) ∧
    (∀ l, l ∈ (self.exit cfg st).1.wrapper_code → l ∉ st.wrapper_code →
      is_print_line l = false) := by
  have h0 : self.enable_debug_printer ≠ OFF := by rw [hl]; decide
  have hfil : self.enable_debug_printer = FILTERED_PRINT →
      self.filtered_kernel_names_to_print ≠ [] := by
    intro hq; rw [hl] at hq; exact absurd hq (by decide)
  have hen := enter_spec self cfg st h0 hsig hfil
  have hex := exit_spec self cfg st h0 hsig hfil
  have hle : ∀ b : Bool, level_emits self cfg b =
      (tensor_args self.arg_signatures 0 self.args_to_print_or_save).map
        (fun a => save_line a (phase_str b) self.kernel_name) := by
    intro b
    simp [level_emits, hl, flatten_map_save_emit cfg hc ha]
  refine ⟨?_, by rw [hen], ?_, by rw [hex], ?_, ?_⟩
  · rw [hen]
    show st.wrapper_code ++ level_emits self cfg true = _
    rw [hle]
    rfl
  · rw [hex]
    show st.wrapper_code ++ level_emits self cfg false = _
    rw [hle]
    rfl
  · intro l hmem hnot
    have hmem2 : l ∈ st.wrapper_code ++ level_emits self cfg true := by
      rw [hen] at hmem; exact hmem
    rw [hle, List.mem_append] at hmem2
    rcases hmem2 with h1 | h2
    · exact absurd h1 hnot
    · exact no_print_line_in_save_lines l _ _ _ h2
  · intro l hmem hnot
    have hmem2 : l ∈ st.wrapper_code ++ level_emits self cfg false := by
      rw [hex] at hmem; exact hmem
    rw [hle, List.mem_append] at hmem2
    rcases hmem2 with h1 | h2
    · exact absurd h1 hnot
    · exact no_print_line_in_save_lines l _ _ _ h2

/-- Witness for c2_save_level at a concrete SAVE-level manager. -/
theorem c2_save_level_witness :
    sigs_ok mgrC2 = true ∧
    ((mgrC2.enter cfgAbi st0).1.wrapper_code =
      st0.wrapper_code ++
        (tensor_args mgrC2.arg_signatures 0 mgrC2.args_to_print_or_save).map
          (fun a => save_line a "before_launch" mgrC2.kernel_name) ∧
    (mgrC2.enter cfgAbi st0).2 = none ∧
    (mgrC2.exit cfgAbi st0).1.wrapper_code =
      st0.wrapper_code ++
        (tensor_args mgrC2.arg_signatures 0 mgrC2.args_to_print_or_save).map
          (fun a => save_line a "after_launch" mgrC2.kernel_name) ∧
    (mgrC2.exit cfgAbi st0).2 = none ∧
    (∀ l, l ∈ (mgrC2.enter cfgAbi st0).1.wrapper_code →
      l ∉ st0.wrapper_code → is_print_line l = false) ∧
    (∀ l, l ∈ (mgrC2.exit cfgAbi st0).1.wrapper_code →
      l ∉ st0.wrapper_code → is_print_line l = false)) :=
  ⟨by decide, c2_save_level mgrC2 cfgAbi st0 rfl rfl rfl (by decide)⟩

/-- Counterexample to claim C1 as stated: at FILTERED_PRINT level with
an empty memoized filter list and one tensor-tagged argument, entering
the scope does raise the assertion error, but only after the
before_launch save line has already been appended to the code buffer;
moreover with an empty argument list no error is raised at all.  So the
fatal error is neither immediate nor universal over argument lists. -/
theorem c1_counterexample :
    (mgrC1.enter cfgAbi st0).2 = some EmitError.assertionError ∧
    (mgrC1.enter cfgAbi st0).1.wrapper_code =
      ["aoti_torch_save_tensor_handle(buf0, \"buf0\", \"before_launch\", \"k0\");"] ∧
    ((mkMgr FILTERED_PRINT [] "k0" none []).enter cfgAbi st0).2 = none := by
  decide

/-- C1 amended: at FILTERED_PRINT with an empty memoized filter list
and a well-formed type-tag list, scope entry appends exactly the
before_launch save emissions, raises the assertion error iff at least
one watched argument passes the type-tag filter, and appends no print
line before (or while) raising. -/
theorem c1_filtered_empty_assert (self : DebugPrinterManager) (cfg : Config)
    (st : GraphState)
    (hl : self.enable_debug_printer = FILTERED_PRINT)
    (hf : self.filtered_kernel_names_to_print = [])
    (hsig : sigs_ok self = true) :
    (self.enter cfg st).1.wrapper_code =
      st.wrapper_code ++
        ((tensor_args self.arg_signatures 0 self.args_to_print_or_save).map
          (fun a => save_emit cfg a "before_launch" self.kernel_name)).flatten ∧
    (self.enter cfg st).2 =
      (if tensor_args self.arg_signatures 0 self.args_to_print_or_save = []
       then none else some EmitError.assertionError) ∧
    (∀ l, l ∈ (self.enter cfg st).1.wrapper_code → l ∉ st.wrapper_code →
      is_print_line l = false) := by
  have hb := sigs_ok_bound self hsig
  have hsave := save_loop_eq cfg self.kernel_name true self.arg_signatures
    self.args_to_print_or_save 0 hb
  have hprint := printer_loop_eq cfg self.enable_debug_printer
    self.filtered_kernel_names_to_print self.kernel_name true
    self.arg_signatures self.args_to_print_or_save 0 hb
  rw [hl, hf] at hprint
  rw [if_pos rfl, if_pos rfl] at hprint
  have henter : self.enter cfg st =
      ({ wrapper_code := st.wrapper_code ++
            ((tensor_args self.arg_signatures 0
                self.args_to_print_or_save).map
              (fun a => save_emit cfg a "before_launch"
                self.kernel_name)).flatten
         all_codegen_kernel_names :=
           st.all_codegen_kernel_names.insert self.kernel_name },
       if tensor_args self.arg_signatures 0 self.args_to_print_or_save = []
       then none else some EmitError.assertionError) := by
    simp [DebugPrinterManager.enter, codegen_intermediate_tensor_value_save,
      codegen_intermediate_tensor_value_printer, hl, hf, hsave, hprint,
      phase_str]
  have hno : ∀ l, l ∈ ((tensor_args self.arg_signatures 0
      self.args_to_print_or_save).map
        (fun a => save_emit cfg a "before_launch" self.kernel_name)).flatten →
      is_print_line l = false := by
    intro l hlmem
    rw [List.mem_flatten] at hlmem
    obtain ⟨L, hL, hlL⟩ := hlmem
    rw [List.mem_map] at hL
    obtain ⟨a, _, rfl⟩ := hL
    simp only [save_emit] at hlL
    split at hlL
    · split at hlL
      · rw [List.mem_singleton] at hlL
        subst hlL
        exact is_print_line_save_line _ _ _
      · simp at hlL
    · simp at hlL
  refine ⟨by rw [henter], by rw [henter], ?_⟩
  intro l hmem hnot
  have hmem2 : l ∈ st.wrapper_code ++
      ((tensor_args self.arg_signatures 0 self.args_to_print_or_save).map
        (fun a => save_emit cfg a "before_launch" self.kernel_name)).flatten := by
    rw [henter] at hmem; exact hmem
  rw [List.mem_append] at hmem2
  rcases hmem2 with h1 | h2
  · exact absurd h1 hnot
  · exact hno l h2

/-- Witness for c1_filtered_empty_assert at the manager of the
counterexample. -/
theorem c1_filtered_empty_assert_witness :
    sigs_ok mgrC1 = true ∧
    ((mgrC1.enter cfgAbi st0).1.wrapper_code =
      st0.wrapper_code ++
        ((tensor_args mgrC1.arg_signatures 0 mgrC1.args_to_print_or_save).map
          (fun a => save_emit cfgAbi a "before_launch" mgrC1.kernel_name)).flatten ∧
    (mgrC1.enter cfgAbi st0).2 =
      (if tensor_args mgrC1.arg_signatures 0 mgrC1.args_to_print_or_save = []
       then none else some EmitError.assertionError) ∧
    (∀ l, l ∈ (mgrC1.enter cfgAbi st0).1.wrapper_code →
      l ∉ st0.wrapper_code → is_print_line l = false)) :=
  ⟨by decide, c1_filtered_empty_assert mgrC1 cfgAbi st0 rfl rfl (by decide)⟩

/-- Counterexample to claim C4 as stated: with the configured filter
string matmul_kernel (whose resolved filter list is the lower-case
matmul_kernel), the manager with kernel name matmul_kernel emits one
print line but the manager whose kernel name differs only in letter
case emits none, so emission is not invariant under varying the case of
the kernel name. -/
theorem c4_counterexample :
    get_debug_filtered_kernel_names cfgMatmul = ["matmul_kernel"] ∧
    ((mgrMatmulLower.enter cfgMatmul st0).1.wrapper_code.filter
      is_print_line).length = 1 ∧
    ((mgrMatmulUpper.enter cfgMatmul st0).1.wrapper_code.filter
      is_print_line).length = 0 := by
  decide

/-- C4 amended: the filter comparison lower-cases (and strips) only the
configured names, while the kernel name is compared verbatim; a kernel
matches iff its exact name is a member of the resolved filter list, so
emission is invariant under case changes of the configured filter
string but not under case changes of the kernel name. -/
theorem c4_filtered_matching (self : DebugPrinterManager) (cfg : Config)
    (st : GraphState)
    (hl : self.enable_debug_printer = FILTERED_PRINT)
    (hf : self.filtered_kernel_names_to_print ≠ [])
    (hsig : sigs_ok self = true)
    (hc : cfg.cpp_wrapper = true) (ha : cfg.abi_compatible = true) :
    (self.enter cfg st).1.wrapper_code =
      st.wrapper_code ++
        (tensor_args self.arg_signatures 0 self.args_to_print_or_save).map
          (fun a => save_line a "before_launch" self.kernel_name) ++
        (if self.kernel_name ∈ self.filtered_kernel_names_to_print then
          (tensor_args self.arg_signatures 0 self.args_to_print_or_save).map
            (fun a => print_line_abi a "before_launch" self.kernel_name)
         else []) ∧
    (self.enter cfg st).2 = none ∧
    (∀ (cw ab : Bool) (s : String),
      get_debug_filtered_kernel_names
        { cpp_wrapper := cw, abi_compatible := ab,
          filtered_kernel_names := some s } =
        (split_comma (s.data.map Char.toLower)).map
          (fun cs => String.mk (strip_chars cs))) := by
  have h0 : self.enable_debug_printer ≠ OFF := by rw [hl]; decide
  have hen := enter_spec self cfg st h0 hsig (fun _ => hf)
  refine ⟨?_, by rw [hen], fun _ _ _ => rfl⟩
  rw [hen]
  show st.wrapper_code ++ level_emits self cfg true = _
  by_cases hm : self.kernel_name ∈ self.filtered_kernel_names_to_print
  · rw [if_pos hm]
    simp [level_emits, hl, hm, flatten_map_save_emit cfg hc ha,
      flatten_map_print_emit cfg hc ha, phase_str, List.append_assoc]
  · rw [if_neg hm]
    simp [level_emits, hl, hm, flatten_map_save_emit cfg hc ha, phase_str]

/-- Witness for c4_filtered_matching at the matching manager. -/
theorem c4_filtered_matching_witness :
    mgrMatmulLower.filtered_kernel_names_to_print ≠ [] ∧
    sigs_ok mgrMatmulLower = true ∧
    ((mgrMatmulLower.enter cfgMatmul st0).1.wrapper_code =
      st0.wrapper_code ++
        (tensor_args mgrMatmulLower.arg_signatures 0
          mgrMatmulLower.args_to_print_or_save).map
          (fun a => save_line a "before_launch" mgrMatmulLower.kernel_name) ++
        (if mgrMatmulLower.kernel_name ∈
            mgrMatmulLower.filtered_kernel_names_to_print then
          (tensor_args mgrMatmulLower.arg_signatures 0
            mgrMatmulLower.args_to_print_or_save).map
            (fun a => print_line_abi a "before_launch"
              mgrMatmulLower.kernel_name)
         else []) ∧
    (mgrMatmulLower.enter cfgMatmul st0).2 = none ∧
    (∀ (cw ab : Bool) (s : String),
      get_debug_filtered_kernel_names
        { cpp_wrapper := cw, abi_compatible := ab,
          filtered_kernel_names := some s } =
        (split_comma (s.data.map Char.toLower)).map
          (fun cs => String.mk (strip_chars cs)))) :=
  ⟨by decide, by decide,
    c4_filtered_matching mgrMatmulLower cfgMatmul st0 rfl (by decide)
      (by decide) rfl rfl⟩

/-- C5: at FILTERED_PRINT level with memoized filter list containing
exactly matmul_kernel, on the abi-compatible cpp-wrapper target with a
well-formed type-tag list: with kernel name matmul_kernel both entry
and exit append the save lines followed by the print lines of the
tensor-typed arguments; with kernel name add_kernel both entry and exit
append the save lines unconditionally and no print line. -/
theorem c5_filter_matmul_vs_add (self : DebugPrinterManager) (cfg : Config)
    (st : GraphState)
    (hl : self.enable_debug_printer = FILTERED_PRINT)
    (hf : self.filtered_kernel_names_to_print = ["matmul_kernel"])
    (hsig : sigs_ok self = true)
    (hc : cfg.cpp_wrapper = true) (ha : cfg.abi_compatible = true) :
    (self.kernel_name = "matmul_kernel" →
      (self.enter cfg st).1.wrapper_code =
        st.wrapper_code ++
          (tensor_args self.arg_signatures 0 self.args_to_print_or_save).map
            (fun a => save_line a "before_launch" self.kernel_name) ++
          (tensor_args self.arg_signatures 0 self.args_to_print_or_save).map
            (fun a => print_line_abi a "before_launch" self.kernel_name) ∧
      (self.enter cfg st).2 = none ∧
      (self.exit cfg st).1.wrapper_code =
        st.wrapper_code ++
          (tensor_args self.arg_signatures 0 self.args_to_print_or_save).map
            (fun a => save_line a "after_launch" self.kernel_name) ++
          (tensor_args self.arg_signatures 0 self.args_to_print_or_save).map
            (fun a => print_line_abi a "after_launch" self.kernel_name) ∧
      (self.exit cfg st).2 = none) ∧
    (self.kernel_name = "add_kernel" →
      (self.enter cfg st).1.wrapper_code =
        st.wrapper_code ++
          (tensor_args self.arg_signatures 0 self.args_to_print_or_save).map
            (fun a => save_line a "before_launch" self.kernel_name) ∧
      (self.enter cfg st).2 = none ∧
      (self.exit cfg st).1.wrapper_code =
        st.wrapper_code ++
          (tensor_args self.arg_signatures 0 self.args_to_print_or_save).map
            (fun a => save_line a "after_launch" self.kernel_name) ∧
      (self.exit cfg st).2 = none ∧
      (∀ l, l ∈ (self.enter cfg st).1.wrapper_code → l ∉ st.wrapper_code →
        is_print_line l = false)) := by
  have h0 : self.enable_debug_printer ≠ OFF := by rw [hl]; decide
  have hfil : self.enable_debug_printer = FILTERED_PRINT →
      self.filtered_kernel_names_to_print ≠ [] := by
    intro _; rw [hf]; simp
  have hen := enter_spec self cfg st h0 hsig hfil
  have hex := exit_spec self cfg st h0 hsig hfil
  constructor
  · intro hkn
    have hm : self.kernel_name ∈ self.filtered_kernel_names_to_print := by
      rw [hf, hkn]; simp
    have hle : ∀ b : Bool, level_emits self cfg b =
        (tensor_args self.arg_signatures 0 self.args_to_print_or_save).map
          (fun a => save_line a (phase_str b) self.kernel_name) ++
        (tensor_args self.arg_signatures 0 self.args_to_print_or_save).map
          (fun a => print_line_abi a (phase_str b) self.kernel_name) := by
      intro b
      simp [level_emits, hl, hm, flatten_map_save_emit cfg hc ha,
        flatten_map_print_emit cfg hc ha]
    refine ⟨?_, by rw [hen], ?_, by rw [hex]⟩
    · rw [hen]
      show st.wrapper_code ++ level_emits self cfg true = _
      rw [hle, ← List.append_assoc]
      rfl
    · rw [hex]
      show st.wrapper_code ++ level_emits self cfg false = _
      rw [hle, ← List.append_assoc]
      rfl
  · intro hkn
    have hm : self.kernel_name ∉ self.filtered_kernel_names_to_print := by
      rw [hf, hkn]; simp
    have hle : ∀ b : Bool, level_emits self cfg b =
        (tensor_args self.arg_signatures 0 self.args_to_print_or_save).map
          (fun a => save_line a (phase_str b) self.kernel_name) := by
      intro b
      simp [level_emits, hl, hm, flatten_map_save_emit cfg hc ha]
    refine ⟨?_, by rw [hen], ?_, by rw [hex], ?_⟩
    · rw [hen]
      show st.wrapper_code ++ level_emits self cfg true = _
      rw [hle]
      rfl
    · rw [hex]
      show st.wrapper_code ++ level_emits self cfg false = _
      rw [hle]
      rfl
    · intro l hmem hnot
      have hmem2 : l ∈ st.wrapper_code ++ level_emits self cfg true := by
        rw [hen] at hmem; exact hmem
      rw [hle, List.mem_append] at hmem2
      rcases hmem2 with h1 | h2
      · exact absurd h1 hnot
      · exact no_print_line_in_save_lines l _ _ _ h2

/-- Witness for c5_filter_matmul_vs_add, instantiating the matching
branch at the matmul_kernel manager and the non-matching branch at the
add_kernel manager. -/
theorem c5_filter_matmul_vs_add_witness :
    ((mkMgr FILTERED_PRINT ["buf0"] "matmul_kernel"
        (some [ArgSigKind.tensorArg]) ["matmul_kernel"]).enter cfgAbi
        st0).1.wrapper_code =
      st0.wrapper_code ++
        (tensor_args (some [ArgSigKind.tensorArg]) 0 ["buf0"]).map
          (fun a => save_line a "before_launch" "matmul_kernel") ++
        (tensor_args (some [ArgSigKind.tensorArg]) 0 ["buf0"]).map
          (fun a => print_line_abi a "before_launch" "matmul_kernel") ∧
    (mgrAddKernel.enter cfgAbi st0).1.wrapper_code =
      st0.wrapper_code ++
        (tensor_args mgrAddKernel.arg_signatures 0
          mgrAddKernel.args_to_print_or_save).map
          (fun a => save_line a "before_launch" mgrAddKernel.kernel_name) ∧
    (∀ l, l ∈ (mgrAddKernel.enter cfgAbi st0).1.wrapper_code →
      l ∉ st0.wrapper_code → is_print_line l = false) :=
  ⟨((c5_filter_matmul_vs_add
      (mkMgr FILTERED_PRINT ["buf0"] "matmul_kernel"
        (some [ArgSigKind.tensorArg]) ["matmul_kernel"]) cfgAbi st0 rfl rfl
      (by decide) rfl rfl).1 rfl).1,
   ((c5_filter_matmul_vs_add mgrAddKernel cfgAbi st0 rfl rfl (by decide)
      rfl rfl).2 rfl).1,
   (((((c5_filter_matmul_vs_add mgrAddKernel cfgAbi st0 rfl rfl (by decide)
      rfl rfl).2 rfl).2).2).2).2⟩

/-- C8: at every non-OFF level (with the well-formedness hypotheses
excluding the modelled exceptions), running the with-statement around a
body appends the before_launch lines, then the body lines, then the
after_launch lines, and registers the kernel name, whether or not the
body raised: the matching after_launch emissions always follow the
before_launch emissions, also when an error propagates out of the
scope. -/
theorem c8_scope_bracketing (self : DebugPrinterManager) (cfg : Config)
    (st : GraphState) (h0 : self.enable_debug_printer ≠ OFF)
    (hsig : sigs_ok self = true)
    (hfil : self.enable_debug_printer = FILTERED_PRINT →
      self.filtered_kernel_names_to_print ≠ []) :
    ∀ (ls : List String) (raised : Bool),
      self.withScope cfg
        (fun s => ({ wrapper_code := s.wrapper_code ++ ls
                     all_codegen_kernel_names :=
                       s.all_codegen_kernel_names }, raised)) st =
        ({ wrapper_code := st.wrapper_code ++ level_emits self cfg true ++
             ls ++ level_emits self cfg false
           all_codegen_kernel_names :=
             st.all_codegen_kernel_names.insert self.kernel_name },
         if raised then ScopeOutcome.bodyError else ScopeOutcome.ok) := by
  intro ls raised
  have hen := enter_spec self cfg st h0 hsig hfil
  have hex := exit_spec self cfg
    ({ wrapper_code := st.wrapper_code ++ (level_emits self cfg true ++ ls)
       all_codegen_kernel_names :=
         st.all_codegen_kernel_names.insert self.kernel_name })
    h0 hsig hfil
  simp [DebugPrinterManager.withScope, hen, hex, List.append_assoc]

/-- Witness for c8_scope_bracketing: a concrete SAVE-level manager with
a body that raises, whose after_launch save line is still appended. -/
theorem c8_scope_bracketing_witness :
    sigs_ok mgrC8 = true ∧
    mgrC8.withScope cfgAbi
      (fun s => ({ wrapper_code := s.wrapper_code ++ ["body_line"]
                   all_codegen_kernel_names :=
                     s.all_codegen_kernel_names }, true)) st0 =
      ({ wrapper_code := st0.wrapper_code ++ level_emits mgrC8 cfgAbi true ++
           ["body_line"] ++ level_emits mgrC8 cfgAbi false
         all_codegen_kernel_names :=
           st0.all_codegen_kernel_names.insert mgrC8.kernel_name },
       if true then ScopeOutcome.bodyError else ScopeOutcome.ok) :=
  ⟨by decide,
    c8_scope_bracketing mgrC8 cfgAbi st0 (by decide) (by decide)
      (fun hq => absurd hq (by decide)) ["body_line"] true⟩

end DebugUtils
